import Mathlib

/-!
Verification of the branch-scoped RBAC core of the Steakz restaurant backend.

The definitions below are a shallow embedding of the JavaScript source:
  - src/backend/middleware/rbac.js  (normalizeRole, requireRoles,
    enforceBranchAccess, blockChefFromNonOrders)
  - src/backend/server.js           (attachActiveBranch, resolveBranchId,
    the route middleware chains and the handlers for reservations listing,
    staff listing and the active-branch update)

JavaScript numbers are modelled by JNum (an integer or NaN: every number in
this code path is an integer id or the NaN produced by a failed parse).
Nullable values are modelled by Option; null and undefined are not
distinguished because the source only tests them with truthiness, the
loose inequality x != null, and the nullish operator, all of which treat
the two alike.
-/

/-- A JavaScript number as it occurs in the branch logic: an integer or NaN. -/
inductive JNum where
  | int (n : Int)
  | nan
deriving DecidableEq, Repr

/-- A request-supplied value (query, path or body): a number or a string. -/
inductive JsVal where
  | num (n : Int)
  | str (s : String)
deriving DecidableEq, Repr

/-- Numeric value of a decimal digit character. -/
def decDigit (c : Char) : Nat := c.toNat - 48

/-- Numeric value of a hexadecimal digit character. -/
def hexDigit (c : Char) : Nat :=
  if c.isDigit then c.toNat - 48
  else if 97 ≤ c.toNat then c.toNat - 87
  else c.toNat - 55

/-- Recognizer for hexadecimal digit characters. -/
def isHexDigitChar (c : Char) : Bool :=
  c.isDigit || (97 ≤ c.toNat && c.toNat ≤ 102) || (65 ≤ c.toNat && c.toNat ≤ 70)

/-- JavaScript parseInt applied to a string, with no radix argument: skip
leading whitespace, read an optional sign, auto-detect a hexadecimal 0x
prefix, then take the longest digit prefix; NaN when no digit is found. -/
def parseIntStr (s : String) : JNum :=
  let cs := s.toList.dropWhile Char.isWhitespace
  let signed : Int × List Char :=
    match cs with
    | '-' :: rest => (-1, rest)
    | '+' :: rest => (1, rest)
    | _ => (1, cs)
  let sign := signed.1
  match signed.2 with
  | '0' :: 'x' :: rest =>
      let ds := rest.takeWhile isHexDigitChar
      if ds.isEmpty then JNum.nan
      else JNum.int (sign * Int.ofNat (ds.foldl (fun a c => a * 16 + hexDigit c) 0))
  | '0' :: 'X' :: rest =>
      let ds := rest.takeWhile isHexDigitChar
      if ds.isEmpty then JNum.nan
      else JNum.int (sign * Int.ofNat (ds.foldl (fun a c => a * 16 + hexDigit c) 0))
  | body =>
      let ds := body.takeWhile Char.isDigit
      if ds.isEmpty then JNum.nan
      else JNum.int (sign * Int.ofNat (ds.foldl (fun a c => a * 10 + decDigit c) 0))

/-- JavaScript parseInt applied to a request value: a number is converted to
its decimal string first, which for the integer-valued numbers of this
system gives the number back. -/
def jsParseInt : JsVal → JNum
  | .num n => .int n
  | .str s => parseIntStr s

/-- JavaScript truthiness of a nullable number: null, undefined, 0 and NaN
are falsy. -/
def jnumTruthy : Option JNum → Bool
  | none => false
  | some .nan => false
  | some (.int n) => n != 0

/-- JavaScript truthiness of a nullable integer: null, undefined and 0 are
falsy. -/
def intTruthy : Option Int → Bool
  | none => false
  | some n => n != 0

/-- JavaScript strict equality between two numbers; NaN is equal to
nothing, not even itself. -/
def jnumStrictEq : JNum → JNum → Bool
  | .int a, .int b => a == b
  | _, _ => false

/-- A user record as the request object carries it (req.user, loaded from
the database by authenticateToken). In the database schema branchId is a
non-null integer and activeBranchId is nullable, but the code guards both
with null checks, so both are modelled as Option. -/
structure User where
  id : Int
  role : Option String
  branchId : Option Int
  activeBranchId : Option Int
deriving DecidableEq, Repr

/-- The request fields the guard layer reads: req.user and the
req.activeBranchId field written by attachActiveBranch. -/
structure ReqCtx where
  user : Option User
  activeBranchId : Option Int
deriving DecidableEq, Repr

/-- Uppercase a string character by character (the behaviour of the
JavaScript toUpperCase on the ASCII role names used here); stated over the
character list so that it evaluates by kernel reduction. -/
def toUpperAscii (s : String) : String := String.mk (s.data.map Char.toUpper)

/-- Source: normalizeRole in middleware/rbac.js line 21: take the role (or
the empty string when it is missing or falsy) and uppercase it. -/
def normalizeRole (role : Option String) : String := toUpperAscii (role.getD "")

/-- The idiom normalizeRole(req.user?.role) that every guard in the source
repeats. -/
def ctxRole (ctx : ReqCtx) : String :=
  normalizeRole (ctx.user.bind (fun u => u.role))

/-- Source: attachActiveBranch middleware in server.js lines 47-60: it sets
req.activeBranchId to the stored activeBranchId or null; the JavaScript
or-operator used there coerces a stored 0 (and null) to null. -/
def attachActiveBranch (persisted : Option Int) : Option Int :=
  match persisted with
  | some n => if n = 0 then none else some n
  | none => none

/-- Request context for an authenticated user after the attachActiveBranch
middleware has run. -/
def mkCtx (u : User) : ReqCtx :=
  { user := some u, activeBranchId := attachActiveBranch u.activeBranchId }

/-- Source: resolveBranchId in server.js lines 63-74. Non-admin roles are
locked to their assigned branch: parseInt(user.branchId) when present, null
otherwise. ADMIN takes the first non-nullish value among the candidate
(query, path or body value), req.activeBranchId and user.branchId, and
applies parseInt to it; null when all three are nullish. -/
def resolveBranchId (ctx : ReqCtx) (candidate : Option JsVal) : Option JNum :=
  let role := ctxRole ctx
  if role ≠ "ADMIN" then
    match ctx.user.bind (fun u => u.branchId) with
    | some b => some (JNum.int b)
    | none => none
  else
    let chosen : Option JsVal :=
      candidate <|> (ctx.activeBranchId.map JsVal.num) <|>
        ((ctx.user.bind (fun u => u.branchId)).map JsVal.num)
    chosen.map jsParseInt

/-- The distinct HTTP responses the guard layer can produce, one
constructor per response site in the source:
  - unauthenticated: 401 Authentication required
  - forbiddenRole: 403 Access denied: role R requires ... (requireRoles)
  - forbiddenCategory: 403 CHEF role can only access Orders
  - badRequestBranchContext: 400 Branch context required
  - forbiddenNoActiveBranch: 403 Branch access denied: no active branch
  - forbiddenBranchMismatch: 403 Branch access denied: resource branch
    does not match active branch
  - badRequestInvalidBranch: 400 Invalid branchId (staff list handler)
  - forbiddenBranchDenied: 403 Branch access denied (staff list handler)
  - allow: the middleware calls next() and the handler proceeds. -/
inductive Decision where
  | unauthenticated
  | forbiddenRole
  | forbiddenCategory
  | badRequestBranchContext
  | forbiddenNoActiveBranch
  | forbiddenBranchMismatch
  | badRequestInvalidBranch
  | forbiddenBranchDenied
  | allow
deriving DecidableEq, Repr

/-- Source: requireRoles in middleware/rbac.js lines 28-42: normalize the
allowed roles and the user role; an empty normalized role is a 401, a role
outside the allow-list a 403, otherwise next(). -/
def requireRoles (allowedRoles : List String) (ctx : ReqCtx) : Decision :=
  let allowed := allowedRoles.map (fun r => normalizeRole (some r))
  let role := ctxRole ctx
  if role = "" then .unauthenticated
  else if !(allowed.contains role) then .forbiddenRole
  else .allow

/-- Source: enforceBranchAccess in middleware/rbac.js lines 62-100. The
resolver argument is the value the per-route resolver callback returned;
at every call site in server.js that callback is resolveBranchId, so the
value is a number or null and the Number() coercion at line 80 is the
identity on it. A falsy resolved value (null, 0 or NaN) is a 400, a falsy
user branch a 403, a strict numeric mismatch a 403; ADMIN is let through
before any of that. The getD defaults below sit in branches that the
preceding truthiness guards make unreachable. -/
def enforceBranchAccess (ctx : ReqCtx) (resolved : Option JNum) : Decision :=
  let role := ctxRole ctx
  if role = "" then .unauthenticated
  else if role = "ADMIN" then .allow
  else
    let userBranchId := ctx.user.bind (fun u => u.branchId)
    let resourceBranchId := resolved
    if !(jnumTruthy resourceBranchId) then .badRequestBranchContext
    else if !(intTruthy userBranchId) then .forbiddenNoActiveBranch
    else if !(jnumStrictEq (resourceBranchId.getD (JNum.int 0))
        (JNum.int (userBranchId.getD 0))) then .forbiddenBranchMismatch
    else .allow

/-- Source: blockChefFromNonOrders in middleware/rbac.js lines 139-148: a
CHEF is refused with the category message, every other role passes. -/
def blockChefFromNonOrders (ctx : ReqCtx) : Decision :=
  if ctxRole ctx = "CHEF" then .forbiddenCategory else .allow

/-- Middleware chain of GET /api/inventory/:branchId (server.js lines
277-297): authenticateToken, attachActiveBranch, blockChefFromNonOrders,
requireRoles [ADMIN, MANAGER, STAFF], enforceBranchAccess over
resolveBranchId applied to the path parameter. Each middleware either
responds (terminating the chain) or calls next(). -/
def inventoryGet (user : Option User) (paramBranchId : String) : Decision :=
  match user with
  | none => .unauthenticated
  | some u =>
    let ctx := mkCtx u
    match blockChefFromNonOrders ctx with
    | .allow =>
      match requireRoles ["ADMIN", "MANAGER", "STAFF"] ctx with
      | .allow => enforceBranchAccess ctx (resolveBranchId ctx (some (JsVal.str paramBranchId)))
      | d => d
    | d => d

/-- Outcome of a list endpoint: a denial, or the executed query described
by the filters of its where clause (the branch filter and, for customers,
the user filter). A branch filter of none is an unscoped, cross-branch
query. -/
inductive ListOutcome where
  | denied (d : Decision)
  | query (branchFilter : Option JNum) (userFilter : Option Int)
deriving DecidableEq, Repr

/-- GET /api/reservations (server.js lines 478-503): authenticateToken,
attachActiveBranch, blockChefFromNonOrders, requireRoles, then
enforceBranchAccess over resolveBranchId with candidate
query.branchId ?? req.activeBranchId; the handler recomputes that branch
id and includes it in the where clause only when it is truthy, adding a
userId filter for customers. -/
def reservationsList (user : Option User) (queryBranchId : Option String) : ListOutcome :=
  match user with
  | none => .denied .unauthenticated
  | some u =>
    let ctx := mkCtx u
    let candidate : Option JsVal :=
      (queryBranchId.map JsVal.str) <|> (ctx.activeBranchId.map JsVal.num)
    match blockChefFromNonOrders ctx with
    | .allow =>
      match requireRoles ["ADMIN", "MANAGER", "STAFF", "CUSTOMER"] ctx with
      | .allow =>
        match enforceBranchAccess ctx (resolveBranchId ctx candidate) with
        | .allow =>
          let branchId := resolveBranchId ctx candidate
          ListOutcome.query (if jnumTruthy branchId then branchId else none)
            (if normalizeRole u.role = "CUSTOMER" then some u.id else none)
        | d => .denied d
      | d => .denied d
    | d => .denied d

/-- GET /api/admin/staff/:branchId (server.js lines 1053-1089):
authenticateToken, requireRoles [ADMIN, MANAGER] — note that this chain
carries neither attachActiveBranch nor blockChefFromNonOrders — then the
handler parses the path parameter (NaN is a 400) and, for non-admins,
compares parseInt(user.branchId) against it with strict inequality, so a
missing user branch (NaN) is always a mismatch. On allow the handler runs
a query filtered by that branch id. -/
def adminStaffList (user : Option User) (paramBranchId : String) : Decision :=
  match user with
  | none => .unauthenticated
  | some u =>
    let ctx : ReqCtx := { user := some u, activeBranchId := none }
    match requireRoles ["ADMIN", "MANAGER"] ctx with
    | .allow =>
      match parseIntStr paramBranchId with
      | .nan => .badRequestInvalidBranch
      | .int branchId =>
        if normalizeRole u.role ≠ "ADMIN" then
          match u.branchId with
          | some ub => if ub ≠ branchId then .forbiddenBranchDenied else .allow
          | none => .forbiddenBranchDenied
        else .allow
    | d => d

/-- GET /api/branches/:id/analytics (server.js lines 789-825):
authenticateToken, attachActiveBranch, requireRoles [ADMIN, MANAGER],
enforceBranchAccess over resolveBranchId applied to the path parameter —
note that this chain, like the staff list, carries no
blockChefFromNonOrders. -/
def branchAnalyticsGet (user : Option User) (paramId : String) : Decision :=
  match user with
  | none => .unauthenticated
  | some u =>
    let ctx := mkCtx u
    match requireRoles ["ADMIN", "MANAGER"] ctx with
    | .allow => enforceBranchAccess ctx (resolveBranchId ctx (some (JsVal.str paramId)))
    | d => d

/-- The persistent state the active-branch update touches: the user table
and the set of existing branch ids. -/
structure Db where
  users : List User
  branchIds : List Int
deriving DecidableEq, Repr

/-- The responses of PATCH /api/users/:id/active-branch. -/
inductive PatchResult where
  | unauthenticated
  | forbiddenRole
  | forbiddenOtherUser
  | badRequestBranchRequired
  | notFoundBranch
  | ok (activeBranchId : Int)
deriving DecidableEq, Repr

/-- PATCH /api/users/:id/active-branch (server.js lines 557-579):
authenticateToken, requireRoles [ADMIN], then the handler parses the path
id and rejects with a 403 unless it strictly equals the caller id (a NaN
parse therefore also rejects), rejects a falsy body branchId with a 400
and an unknown branch with a 404, and otherwise updates the activeBranchId
of the target row. Returns the response together with the database after
the request. -/
def patchActiveBranch (db : Db) (caller : Option User) (paramId : String)
    (bodyBranchId : Option Int) : PatchResult × Db :=
  match caller with
  | none => (.unauthenticated, db)
  | some u =>
    let ctx : ReqCtx := { user := some u, activeBranchId := none }
    match requireRoles ["ADMIN"] ctx with
    | .allow =>
      let userId := parseIntStr paramId
      if !(jnumStrictEq userId (JNum.int u.id)) then (.forbiddenOtherUser, db)
      else if !(intTruthy bodyBranchId) then (.badRequestBranchRequired, db)
      else
        let b := bodyBranchId.getD 0
        if !(db.branchIds.contains b) then (.notFoundBranch, db)
        else
          (.ok b,
            { db with
              users := db.users.map (fun v =>
                if v.id = u.id then { v with activeBranchId := some b } else v) })
    | .unauthenticated => (.unauthenticated, db)
    | _ => (.forbiddenRole, db)

example : parseIntStr "9" = JNum.int 9 := by decide
example : parseIntStr "abc" = JNum.nan := by decide
example : parseIntStr "12abc" = JNum.int 12 := by decide
example : parseIntStr "-7" = JNum.int (-7) := by decide
example : parseIntStr "0x10" = JNum.int 16 := by decide
example : normalizeRole (some "manager") = "MANAGER" := by decide
example :
    resolveBranchId (mkCtx ⟨7, some "MANAGER", some 2, none⟩) (some (JsVal.str "9"))
      = some (JNum.int 2) := by decide
example :
    resolveBranchId (mkCtx ⟨1, some "ADMIN", some 1, some 3⟩) none
      = some (JNum.int 3) := by decide
example :
    enforceBranchAccess ⟨some ⟨1, some "MANAGER", some 5, none⟩, none⟩ (some (JNum.int 7))
      = Decision.forbiddenBranchMismatch := by decide
example :
    enforceBranchAccess ⟨some ⟨1, some "admin", some 5, none⟩, none⟩ (some (JNum.int 7))
      = Decision.allow := by decide
example :
    inventoryGet (some ⟨3, some "CHEF", some 2, none⟩) "2"
      = Decision.forbiddenCategory := by decide
example :
    adminStaffList (some ⟨3, some "CHEF", some 2, none⟩) "2"
      = Decision.forbiddenRole := by decide
example :
    reservationsList (some ⟨1, some "ADMIN", none, none⟩) none
      = ListOutcome.query none none := by decide
example :
    reservationsList (some ⟨2, some "MANAGER", some 4, none⟩) none
      = ListOutcome.query (some (JNum.int 4)) none := by decide
example :
    (patchActiveBranch ⟨[⟨1, some "ADMIN", some 1, none⟩], [1, 2]⟩
      (some ⟨1, some "ADMIN", some 1, none⟩) "1" (some 2)).1 = PatchResult.ok 2 := by decide

/-- C1: for every actor whose normalized role is not ADMIN, and for every
requested branch candidate and every attached active branch, the resolver
returns the actor home branch id (null when the actor has none); neither
the candidate nor the active branch appears on the right hand side, so
they never influence the result. -/
theorem c1_nonadmin_locked_to_home (u : User) (attached : Option Int)
    (candidate : Option JsVal) (h : normalizeRole u.role ≠ "ADMIN") :
    resolveBranchId ⟨some u, attached⟩ candidate = u.branchId.map JNum.int := by
  have hr : ctxRole ⟨some u, attached⟩ = normalizeRole u.role := rfl
  cases hb : u.branchId <;>
    simp [resolveBranchId, hr, h, hb]

/-- C1 witness: scenario C of the spec, a MANAGER with home branch 2
requesting branch 9 resolves to 2, the request being ignored. -/
theorem c1_witness :
    resolveBranchId ⟨some ⟨7, some "MANAGER", some 2, none⟩, some 7⟩ (some (JsVal.str "9"))
      = some (JNum.int 2) :=
  c1_nonadmin_locked_to_home ⟨7, some "MANAGER", some 2, none⟩ (some 7)
    (some (JsVal.str "9")) (by decide)

/-- C2 counterexample: for an ADMIN with active branch 3, the non-numeric
requested value abc does not fall through to the active branch as the
claim states: the resolver returns NaN, while falling through (an absent
candidate) would return 3. -/
theorem c2_counterexample :
    resolveBranchId ⟨some ⟨1, some "ADMIN", some 1, some 3⟩, some 3⟩ (some (JsVal.str "abc"))
        = some JNum.nan
    ∧ resolveBranchId ⟨some ⟨1, some "ADMIN", some 1, some 3⟩, some 3⟩ none
        = some (JNum.int 3)
    ∧ some JNum.nan ≠ some (JNum.int 3) := by decide

/-- C2 amended: for an ADMIN, a string candidate is always coerced with
parseInt and never falls through: the result is the parsed value, which
for a numeric string is its integer value and for a non-numeric string is
NaN — never a silent zero. -/
theorem c2_admin_string_candidate_parsed (u : User) (attached : Option Int) (s : String)
    (h : normalizeRole u.role = "ADMIN") :
    resolveBranchId ⟨some u, attached⟩ (some (JsVal.str s)) = some (parseIntStr s)
    ∧ parseIntStr "42" = JNum.int 42
    ∧ parseIntStr "abc" = JNum.nan
    ∧ JNum.nan ≠ JNum.int 0 := by
  have hr : ctxRole ⟨some u, attached⟩ = normalizeRole u.role := rfl
  refine ⟨?_, by decide, by decide, by decide⟩
  simp [resolveBranchId, hr, h, jsParseInt]

/-- C2 amended witness: a concrete ADMIN with a non-numeric string
candidate gets the parsed NaN value, not a fall-through. -/
theorem c2_witness :
    resolveBranchId ⟨some ⟨1, some "ADMIN", some 1, some 3⟩, some 3⟩ (some (JsVal.str "abc"))
        = some (parseIntStr "abc")
    ∧ parseIntStr "42" = JNum.int 42
    ∧ parseIntStr "abc" = JNum.nan
    ∧ JNum.nan ≠ JNum.int 0 :=
  c2_admin_string_candidate_parsed ⟨1, some "ADMIN", some 1, some 3⟩ (some 3) "abc" (by decide)

/-- C3 counterexample: an ADMIN with home branch 1 and a stored active
branch 0 and no requested value resolves to 1, not to the first defined
value 0 the claim demands: the attach step coerces the stored 0 to null. -/
theorem c3_counterexample :
    resolveBranchId (mkCtx ⟨1, some "ADMIN", some 1, some 0⟩) none = some (JNum.int 1)
    ∧ some (JNum.int 1) ≠ some (JNum.int 0) := by decide

/-- C3 amended: for an ADMIN, over numeric-or-absent values in the chain,
the pipeline of attachActiveBranch and resolveBranchId returns the first
defined value among the requested branch, the stored active branch — a
stored value of 0 being treated as absent by the attach step — and the
home branch, and null when none is defined. -/
theorem c3_admin_priority_chain (u : User) (candidate : Option Int)
    (h : normalizeRole u.role = "ADMIN") :
    resolveBranchId (mkCtx u) (candidate.map JsVal.num)
      = (candidate <|> (attachActiveBranch u.activeBranchId <|> u.branchId)).map JNum.int := by
  have hr : ∀ x, ctxRole ⟨some u, x⟩ = normalizeRole u.role := fun _ => rfl
  cases candidate <;> cases hA : attachActiveBranch u.activeBranchId <;>
    cases hb : u.branchId <;>
      simp [resolveBranchId, mkCtx, hr, h, hA, hb, jsParseInt]

/-- C3 amended witness: scenario B of the spec, an ADMIN with home branch
1 and stored active branch 3 and no requested value resolves to 3. -/
theorem c3_witness :
    resolveBranchId (mkCtx ⟨1, some "ADMIN", some 1, some 3⟩) ((none : Option Int).map JsVal.num)
      = ((none : Option Int) <|> (attachActiveBranch (some 3) <|> some 1)).map JNum.int :=
  c3_admin_priority_chain ⟨1, some "ADMIN", some 1, some 3⟩ none (by decide)

/-- C5: for an actor whose normalized role is ADMIN, the branch access
check always allows, whatever the resolved resource branch is. -/
theorem c5_admin_always_allowed (u : User) (attached : Option Int) (resolved : Option JNum)
    (h : normalizeRole u.role = "ADMIN") :
    enforceBranchAccess ⟨some u, attached⟩ resolved = Decision.allow := by
  have hr : ctxRole ⟨some u, attached⟩ = normalizeRole u.role := rfl
  simp [enforceBranchAccess, hr, h]

/-- C5 witness: a concrete ADMIN with home branch 1 is allowed on a
resource of branch 99. -/
theorem c5_witness :
    enforceBranchAccess ⟨some ⟨1, some "ADMIN", some 1, none⟩, none⟩ (some (JNum.int 99))
      = Decision.allow :=
  c5_admin_always_allowed ⟨1, some "ADMIN", some 1, none⟩ none (some (JNum.int 99)) (by decide)

/-- C4 counterexample: a MANAGER whose branch id is 0 asking for a
resource whose branch id is 0 — defined on both sides and numerically
equal, so the claim as stated demands Allow — is instead rejected with the
400 branch-context response, because the code tests branch ids for
truthiness and 0 is falsy. -/
theorem c4_counterexample :
    enforceBranchAccess ⟨some ⟨1, some "MANAGER", some 0, none⟩, none⟩ (some (JNum.int 0))
        = Decision.badRequestBranchContext
    ∧ Decision.badRequestBranchContext ≠ Decision.allow := by decide

/-- C4 amended: for a non-admin actor with a non-empty role, the branch
check allows exactly when the resolved resource branch is a truthy
integer equal to the actor truthy home branch; a falsy resource branch
(null, 0 or NaN) is the 400 branch-context denial, a falsy actor branch
is the 403 no-active-branch denial, and a genuine numeric mismatch is the
403 branch-mismatch denial — never a wildcard allow. -/
theorem c4_nonadmin_branch_check (u : User) (attached : Option Int) (resolved : Option JNum)
    (hne : normalizeRole u.role ≠ "") (hna : normalizeRole u.role ≠ "ADMIN") :
    (enforceBranchAccess ⟨some u, attached⟩ resolved = Decision.allow
       ↔ ∃ r, resolved = some (JNum.int r) ∧ r ≠ 0 ∧ u.branchId = some r)
    ∧ (jnumTruthy resolved = false →
        enforceBranchAccess ⟨some u, attached⟩ resolved = Decision.badRequestBranchContext)
    ∧ (jnumTruthy resolved = true → intTruthy u.branchId = false →
        enforceBranchAccess ⟨some u, attached⟩ resolved = Decision.forbiddenNoActiveBranch)
    ∧ (∀ r b, resolved = some (JNum.int r) → u.branchId = some b →
        r ≠ 0 → b ≠ 0 → r ≠ b →
        enforceBranchAccess ⟨some u, attached⟩ resolved = Decision.forbiddenBranchMismatch) := by
  have hr : ctxRole ⟨some u, attached⟩ = normalizeRole u.role := rfl
  refine ⟨?_, ?_, ?_, ?_⟩
  · rcases resolved with _ | j
    · simp [enforceBranchAccess, hr, hne, hna, jnumTruthy]
    · rcases j with r | _
      · rcases hb : u.branchId with _ | b
        · by_cases hr0 : r = 0
          · simp [enforceBranchAccess, hr, hne, hna, jnumTruthy, intTruthy, jnumStrictEq,
              hb, hr0]
          · simp [enforceBranchAccess, hr, hne, hna, jnumTruthy, intTruthy, jnumStrictEq,
              hb, hr0]
        · by_cases hr0 : r = 0
          · simp [enforceBranchAccess, hr, hne, hna, jnumTruthy, intTruthy, jnumStrictEq,
              hb, hr0]
          · by_cases hb0 : b = 0
            · simp [enforceBranchAccess, hr, hne, hna, jnumTruthy, intTruthy, jnumStrictEq,
                hb, hr0, hb0]
              omega
            · by_cases hrb : r = b
              · simp [enforceBranchAccess, hr, hne, hna, jnumTruthy, intTruthy, jnumStrictEq,
                  hb, hr0, hb0, hrb]
              · simp [enforceBranchAccess, hr, hne, hna, jnumTruthy, intTruthy, jnumStrictEq,
                  hb, hr0, hb0, hrb]
                omega
      · simp [enforceBranchAccess, hr, hne, hna, jnumTruthy]
  · intro ht
    simp [enforceBranchAccess, hr, hne, hna, ht]
  · intro ht hu
    simp [enforceBranchAccess, hr, hne, hna, ht, hu]
  · intro r b hres hb hr0 hb0 hrb
    simp [enforceBranchAccess, hr, hne, hna, hres, hb, jnumTruthy, intTruthy, jnumStrictEq,
      hr0, hb0, hrb]

/-- C4 amended witness: scenario A of the spec, a MANAGER with home
branch 5 asking for a resource of branch 7 gets the branch-mismatch
denial. -/
theorem c4_witness :
    enforceBranchAccess ⟨some ⟨1, some "MANAGER", some 5, none⟩, none⟩ (some (JNum.int 7))
      = Decision.forbiddenBranchMismatch :=
  (c4_nonadmin_branch_check ⟨1, some "MANAGER", some 5, none⟩ none (some (JNum.int 7))
      (by decide) (by decide)).2.2.2 7 5 rfl rfl (by decide) (by decide) (by decide)

/-- C10: for a non-admin actor with a non-empty role, a resolved resource
branch of 0 and likewise of NaN are rejected with the 400 branch-context
response, never compared for equality; and an actor whose stored branch
id is 0 is never allowed through the check, even when the resource branch
is also 0. -/
theorem c10_zero_and_nan_are_absent_context (u : User) (attached : Option Int)
    (hne : normalizeRole u.role ≠ "") (hna : normalizeRole u.role ≠ "ADMIN") :
    enforceBranchAccess ⟨some u, attached⟩ (some (JNum.int 0))
        = Decision.badRequestBranchContext
    ∧ enforceBranchAccess ⟨some u, attached⟩ (some JNum.nan)
        = Decision.badRequestBranchContext
    ∧ (u.branchId = some 0 → ∀ resolved,
        enforceBranchAccess ⟨some u, attached⟩ resolved ≠ Decision.allow) := by
  have hr : ctxRole ⟨some u, attached⟩ = normalizeRole u.role := rfl
  refine ⟨?_, ?_, ?_⟩
  · simp [enforceBranchAccess, hr, hne, hna, jnumTruthy]
  · simp [enforceBranchAccess, hr, hne, hna, jnumTruthy]
  · intro hb0 resolved
    rcases resolved with _ | j
    · simp [enforceBranchAccess, hr, hne, hna, jnumTruthy]
    · rcases j with r | _
      · by_cases hr0 : r = 0
        · simp [enforceBranchAccess, hr, hne, hna, jnumTruthy, intTruthy, hb0, hr0]
        · simp [enforceBranchAccess, hr, hne, hna, jnumTruthy, intTruthy, hb0, hr0]
      · simp [enforceBranchAccess, hr, hne, hna, jnumTruthy]

/-- C10 witness: a MANAGER with stored branch 0 and a resource branch of
0 gets the 400 branch-context response. -/
theorem c10_witness :
    enforceBranchAccess ⟨some ⟨1, some "MANAGER", some 0, none⟩, none⟩ (some (JNum.int 0))
      = Decision.badRequestBranchContext :=
  (c10_zero_and_nan_are_absent_context ⟨1, some "MANAGER", some 0, none⟩ none
    (by decide) (by decide)).1

/-- C7 counterexample: a CHEF (the kitchen-facing role) with home branch 2
calling the staff list for branch 2 is denied by the role allow-list with
the role message, not by the category guard: the staff route carries no
blockChefFromNonOrders middleware. -/
theorem c7_counterexample :
    adminStaffList (some ⟨3, some "CHEF", some 2, none⟩) "2" = Decision.forbiddenRole
    ∧ Decision.forbiddenRole ≠ Decision.forbiddenCategory := by decide

/-- C7 amended: a CHEF is denied on every modelled non-order endpoint
whatever the branch, but the denial reason depends on the route: the
inventory and reservations routes carry the category guard and deny with
the category message, while the staff list and branch analytics routes
carry no category guard and deny the CHEF through their role allow-list
with the role message. -/
theorem c7_chef_denied_outside_orders (u : User) (h : normalizeRole u.role = "CHEF") :
    (∀ p, inventoryGet (some u) p = Decision.forbiddenCategory)
    ∧ (∀ q, reservationsList (some u) q = ListOutcome.denied Decision.forbiddenCategory)
    ∧ (∀ p, adminStaffList (some u) p = Decision.forbiddenRole)
    ∧ (∀ p, branchAnalyticsGet (some u) p = Decision.forbiddenRole) := by
  have hr : ∀ x, ctxRole ⟨some u, x⟩ = normalizeRole u.role := fun _ => rfl
  have hA : normalizeRole (some "ADMIN") = "ADMIN" := by decide
  have hM : normalizeRole (some "MANAGER") = "MANAGER" := by decide
  refine ⟨fun p => ?_, fun q => ?_, fun p => ?_, fun p => ?_⟩
  · simp [inventoryGet, blockChefFromNonOrders, mkCtx, hr, h]
  · simp [reservationsList, blockChefFromNonOrders, mkCtx, hr, h]
  · simp [adminStaffList, requireRoles, hr, h, hA, hM]
  · simp [branchAnalyticsGet, requireRoles, mkCtx, hr, h, hA, hM]

/-- C7 amended witness: the concrete CHEF of scenario D on the
reservations list gets the category denial, and on the staff list the
role denial. -/
theorem c7_witness :
    reservationsList (some ⟨3, some "CHEF", some 2, none⟩) (some "2")
      = ListOutcome.denied Decision.forbiddenCategory :=
  (c7_chef_denied_outside_orders ⟨3, some "CHEF", some 2, none⟩ (by decide)).2.1 (some "2")

/-- C8 counterexample: on the cited inventory route a CHEF fails both the
role allow-list and the category guard, and the response is the category
denial, not the role denial the claim derives from a role-first order: in
the source the category guard runs before the role guard. -/
theorem c8_counterexample :
    inventoryGet (some ⟨3, some "CHEF", some 2, none⟩) "2" = Decision.forbiddenCategory
    ∧ requireRoles ["ADMIN", "MANAGER", "STAFF"] (mkCtx ⟨3, some "CHEF", some 2, none⟩)
        = Decision.forbiddenRole
    ∧ Decision.forbiddenCategory ≠ Decision.forbiddenRole := by decide

/-- C8 amended: on the inventory route the guards run in the fixed order
authenticate, category, role, branch resolution and branch check, each
failing guard short-circuiting the rest; hence when both the role and the
category check would fail the response is the category denial. -/
theorem c8_guard_order (u : User) (p : String) :
    inventoryGet none p = Decision.unauthenticated
    ∧ (blockChefFromNonOrders (mkCtx u) ≠ Decision.allow →
        inventoryGet (some u) p = blockChefFromNonOrders (mkCtx u))
    ∧ (blockChefFromNonOrders (mkCtx u) = Decision.allow →
       requireRoles ["ADMIN", "MANAGER", "STAFF"] (mkCtx u) ≠ Decision.allow →
        inventoryGet (some u) p = requireRoles ["ADMIN", "MANAGER", "STAFF"] (mkCtx u))
    ∧ (blockChefFromNonOrders (mkCtx u) = Decision.allow →
       requireRoles ["ADMIN", "MANAGER", "STAFF"] (mkCtx u) = Decision.allow →
        inventoryGet (some u) p
          = enforceBranchAccess (mkCtx u) (resolveBranchId (mkCtx u) (some (JsVal.str p)))) := by
  refine ⟨rfl, ?_, ?_, ?_⟩
  · intro hb
    cases hB : blockChefFromNonOrders (mkCtx u) <;> simp_all [inventoryGet]
  · intro hb hrr
    cases hR : requireRoles ["ADMIN", "MANAGER", "STAFF"] (mkCtx u) <;>
      simp_all [inventoryGet]
  · intro hb hrr
    simp [inventoryGet, hb, hrr]

/-- C8 amended witness: for the concrete CHEF, the category guard fails
and the route answers with exactly that guard response. -/
theorem c8_witness :
    inventoryGet (some ⟨3, some "CHEF", some 2, none⟩) "2"
      = blockChefFromNonOrders (mkCtx ⟨3, some "CHEF", some 2, none⟩) :=
  (c8_guard_order ⟨3, some "CHEF", some 2, none⟩ "2").2.1 (by decide)

/-- C6: evaluation of the reservations list at the failing inputs. For an
ADMIN with no home branch and no stored active branch, resolution is null,
yet the route answers with an unscoped query (no branch filter) instead of
the required branch-context rejection; an ADMIN with a home branch but a
non-numeric branch parameter also gets an unscoped query; a non-admin with
null resolution does get the branch-context rejection. -/
theorem c6_admin_unscoped_when_no_branch_context :
    resolveBranchId (mkCtx ⟨1, some "ADMIN", none, none⟩) none = none
    ∧ reservationsList (some ⟨1, some "ADMIN", none, none⟩) none = ListOutcome.query none none
    ∧ reservationsList (some ⟨1, some "ADMIN", some 1, none⟩) (some "abc")
        = ListOutcome.query none none
    ∧ reservationsList (some ⟨2, some "MANAGER", none, none⟩) none
        = ListOutcome.denied Decision.badRequestBranchContext
    ∧ ListOutcome.query none none ≠ ListOutcome.denied Decision.badRequestBranchContext := by
  decide

/-- C9: the active-branch update leaves the whole user table unchanged and
never answers with a success whenever the caller is not an ADMIN or the
target id of the path does not strictly equal the caller id (a non-admin
caller, an admin targeting another user, or an unparseable id). -/
theorem c9_active_branch_update_guarded (db : Db) (caller : User) (paramId : String)
    (body : Option Int)
    (h : normalizeRole caller.role ≠ "ADMIN" ∨ parseIntStr paramId ≠ JNum.int caller.id) :
    (patchActiveBranch db (some caller) paramId body).2 = db
    ∧ ∀ b, (patchActiveBranch db (some caller) paramId body).1 ≠ PatchResult.ok b := by
  have hr : ctxRole ⟨some caller, none⟩ = normalizeRole caller.role := rfl
  have hA : normalizeRole (some "ADMIN") = "ADMIN" := by decide
  rcases h with h | h
  · by_cases h0 : normalizeRole caller.role = ""
    · simp [patchActiveBranch, requireRoles, hr, h0]
    · simp [patchActiveBranch, requireRoles, hr, h0, hA, h]
  · have hs : jnumStrictEq (parseIntStr paramId) (JNum.int caller.id) = false := by
      cases hp : parseIntStr paramId with
      | int a =>
        have ha : a ≠ caller.id := by
          intro e
          exact h (by rw [hp, e])
        simp [jnumStrictEq, ha]
      | nan => simp [jnumStrictEq]
    cases hR : requireRoles ["ADMIN"] ⟨some caller, none⟩ <;>
      simp_all [patchActiveBranch]

/-- C9 witness: a MANAGER calling the update on their own id changes
nothing and gets no success response. -/
theorem c9_witness :
    (patchActiveBranch ⟨[⟨1, some "MANAGER", some 1, none⟩], [1, 2]⟩
        (some ⟨1, some "MANAGER", some 1, none⟩) "1" (some 2)).2
      = ⟨[⟨1, some "MANAGER", some 1, none⟩], [1, 2]⟩ :=
  (c9_active_branch_update_guarded ⟨[⟨1, some "MANAGER", some 1, none⟩], [1, 2]⟩
    ⟨1, some "MANAGER", some 1, none⟩ "1" (some 2) (Or.inl (by decide))).1
